import Mathlib

/-!
Shallow embedding of the Property Gemini frontend
(`src/frontend/src/components/LocationAnalysis.tsx` (PropertySelector variants),
`src/frontend/src/pages/AnalysisPage.tsx`, `src/frontend/src/api/crewai.ts`,
`src/frontend/src/components/SearchForm.tsx`,
`src/frontend/src/components/PropertyGrid.tsx` (DesignComparison)),
with theorems checking the natural-language specification against it.
-/

namespace PropertyGemini

/-- The `ScrapedProperty` interface rendered by the property selector
(LocationAnalysis.tsx): id, url, price, address, bedrooms, bathrooms,
description, images. -/
structure ScrapedProperty where
  id : String
  url : String
  price : String
  address : String
  bedrooms : Nat
  bathrooms : Nat
  description : String
  images : List String
deriving DecidableEq

/-- The default interior style used by the selector when no preference was
entered: the literal "Modern Minimalist" of LocationAnalysis.tsx. -/
def defaultStyle : String := "Modern Minimalist"

/-- Component state of the second `PropertySelector` variant: `selectedIds`
(useState of string list) and `designPreferences` (a Record from property id
to entered style), the record modelled as an association list with at most
one entry per key. -/
structure SelectorState where
  selectedIds : List String
  designPreferences : List (String × String)
deriving DecidableEq

/-- Initial selector state: `useState<string[]>([])` and `useState<Record<string,string>>({})`. -/
def initialSelectorState : SelectorState := ⟨[], []⟩

/-- Read `designPreferences[id]`: `none` models the JS `undefined`. -/
def lookupPref (prefs : List (String × String)) (id : String) : Option String :=
  List.lookup id prefs

/-- Write `{...prev, [id]: style}`: overwrite the entry for `id`. -/
def setPref (prefs : List (String × String)) (id style : String) :
    List (String × String) :=
  (id, style) :: prefs.filter (fun p => p.1 != id)

/-- `toggleSelection` of the second PropertySelector variant
(LocationAnalysis.tsx lines 258-268): remove `id` when already selected;
otherwise append it and, when `designPreferences[id]` is JS-falsy (absent or
the empty string), initialize the preference to "Modern Minimalist". -/
def toggleSelection (id : String) (st : SelectorState) : SelectorState :=
  if st.selectedIds.contains id then
    { st with selectedIds := st.selectedIds.filter (fun sid => sid != id) }
  else
    { selectedIds := st.selectedIds ++ [id],
      designPreferences :=
        if (lookupPref st.designPreferences id).getD "" = "" then
          setPref st.designPreferences id defaultStyle
        else
          st.designPreferences }

/-- `handleDesignChange` (LocationAnalysis.tsx lines 270-275): record the
entered style for `id` and add `id` to the selection when not yet selected. -/
def handleDesignChange (id style : String) (st : SelectorState) : SelectorState :=
  let st1 := { st with designPreferences := setPref st.designPreferences id style }
  if st1.selectedIds.contains id then st1
  else { st1 with selectedIds := st1.selectedIds ++ [id] }

/-- The style paired with a selected id on approval:
`designPreferences[id] || "Modern Minimalist"` — the entered preference when
it is JS-truthy (present and non-empty), the default otherwise. -/
def styleFor (prefs : List (String × String)) (id : String) : String :=
  let s := (lookupPref prefs id).getD ""
  if s = "" then defaultStyle else s

/-- `handleApprove` (LocationAnalysis.tsx lines 293-299): map over
`selectedIds`, pairing each id with its style, and hand the list to
`onApprove`. -/
def handleApprove (st : SelectorState) : List (String × String) :=
  st.selectedIds.map (fun id => (id, styleFor st.designPreferences id))

/-- The `disabled={selectedIds.length === 0}` guard on the approve button
(both selector variants). -/
def approveDisabled (st : SelectorState) : Bool :=
  st.selectedIds.length == 0

/-- A UI event of the selector that can change `selectedIds`: clicking a
card's checkbox (`toggleSelection`) or typing in a card's style input
(`handleDesignChange`). Both call sites live inside `properties.map`, so the
id argument is always the `id` of a rendered property. -/
inductive SelectorEvent where
  | toggle (id : String)
  | designChange (id : String) (style : String)
deriving DecidableEq

/-- The property id an event was fired for. -/
def SelectorEvent.eid : SelectorEvent → String
  | .toggle id => id
  | .designChange id _ => id

/-- One step of the selector component under a UI event. -/
def selectorStep (st : SelectorState) (e : SelectorEvent) : SelectorState :=
  match e with
  | .toggle id => toggleSelection id st
  | .designChange id style => handleDesignChange id style st

/-- The selector state after a sequence of UI events from the initial state. -/
def runSelector (evs : List SelectorEvent) : SelectorState :=
  evs.foldl selectorStep initialSelectorState

/-- `nextImage` index update (LocationAnalysis.tsx lines 277-283):
`((prev[id] || 0) + 1) % total`, over JS numbers modelled as integers. -/
def nextImage (i total : Int) : Int := (i + 1) % total

/-- `prevImage` index update (LocationAnalysis.tsx lines 285-291):
`((prev[id] || 0) - 1 + total) % total`. -/
def prevImage (i total : Int) : Int := (i - 1 + total) % total

/-- The page-level state union of AnalysisPage.tsx line 11:
`'IDLE' | 'STARTING' | 'RESEARCHING' | 'WAITING_USER_INPUT' | 'ANALYZING' | 'COMPLETED' | 'ERROR'`. -/
inductive PageState where
  | IDLE | STARTING | RESEARCHING | WAITING_USER_INPUT | ANALYZING | COMPLETED | ERROR
deriving DecidableEq, Fintype

/-- The TS literal naming each page state. -/
def pageStateName : PageState → String
  | .IDLE => "IDLE"
  | .STARTING => "STARTING"
  | .RESEARCHING => "RESEARCHING"
  | .WAITING_USER_INPUT => "WAITING_USER_INPUT"
  | .ANALYZING => "ANALYZING"
  | .COMPLETED => "COMPLETED"
  | .ERROR => "ERROR"

/-- The status union of `FlowStatus` (crewai.ts lines 25-31):
`'PENDING' | 'RUNNING' | 'COMPLETED' | 'FAILED' | 'WAITING_INPUT'`. -/
inductive FlowStatusValue where
  | PENDING | RUNNING | COMPLETED | FAILED | WAITING_INPUT
deriving DecidableEq, Fintype

/-- The TS literal naming each status value. -/
def flowStatusName : FlowStatusValue → String
  | .PENDING => "PENDING"
  | .RUNNING => "RUNNING"
  | .COMPLETED => "COMPLETED"
  | .FAILED => "FAILED"
  | .WAITING_INPUT => "WAITING_INPUT"

/-- Modelled from the spec: the §4.1 lifecycle state set
`INIT, PHASE1_RUNNING, AWAITING_FEEDBACK, PHASE2_RUNNING, PHASE3_RUNNING,
COMPLETED, FAILED`, written down for comparison with the value sets the code
actually uses. -/
def specLifecycleStates : List String :=
  ["INIT", "PHASE1_RUNNING", "AWAITING_FEEDBACK", "PHASE2_RUNNING",
   "PHASE3_RUNNING", "COMPLETED", "FAILED"]

/-- Shape of the parsed `status.result` payload as AnalysisPage.tsx reads it:
`parsed.properties || parsed.listings || []`, each an optional list of
properties. -/
structure ResultPayload where
  properties : Option (List ScrapedProperty)
  listings : Option (List ScrapedProperty)
deriving DecidableEq

/-- The `FlowStatus` response record (crewai.ts lines 25-31). -/
structure FlowStatus where
  execution_id : String
  status : FlowStatusValue
  result : Option ResultPayload
  current_step : Option String
  last_feedback_request : Option String
deriving DecidableEq

/-- `parsed.properties || parsed.listings || []` of AnalysisPage.tsx line 87
(in JS an empty array is truthy, so an absent field — not an empty list — is
what falls through). -/
def extractProperties (r : ResultPayload) : List ScrapedProperty :=
  match r.properties with
  | some ps => ps
  | none =>
    match r.listings with
    | some ls => ls
    | none => []

/-- The page data touched by the polling callback: page state, research
results, final results and the error message. -/
structure PageData where
  pageState : PageState
  researchResults : List ScrapedProperty
  finalResults : Option ResultPayload
  errorMessage : String
deriving DecidableEq

/-- The polling-activation condition of AnalysisPage.tsx line 114 (also the
early-return guard of `checkStatus`, line 70): a kickoff id exists and the
page is RESEARCHING or ANALYZING. -/
def pollingActive (kickoffId : Option String) (s : PageState) : Bool :=
  kickoffId.isSome && (s == PageState.RESEARCHING || s == PageState.ANALYZING)

/-- The poll interval handed to `setInterval` (AnalysisPage.tsx line 115),
in milliseconds. -/
def pollIntervalMs : Nat := 3000

/-- State update performed by one `checkStatus` poll tick (AnalysisPage.tsx
lines 69-112) upon receiving status data `d`: early return unless polling is
active; at WAITING_INPUT extract properties from `result` when present and
move to WAITING_USER_INPUT; at COMPLETED store `result` as final results; at
FAILED move to ERROR with a fixed message. The three checks are sequential
`if`s in the source; at most one fires because `d.status` is one value. -/
def checkStatus (kickoffId : Option String) (st : PageData) (d : FlowStatus) :
    PageData :=
  if pollingActive kickoffId st.pageState = false then st
  else
    let st1 :=
      if d.status = FlowStatusValue.WAITING_INPUT then
        let withResults :=
          match d.result with
          | some r => { st with researchResults := extractProperties r }
          | none => st
        { withResults with pageState := PageState.WAITING_USER_INPUT }
      else st
    let st2 :=
      if d.status = FlowStatusValue.COMPLETED then
        { st1 with finalResults := d.result, pageState := PageState.COMPLETED }
      else st1
    if d.status = FlowStatusValue.FAILED then
      { st2 with pageState := PageState.ERROR,
                 errorMessage := "Workflow execution failed." }
    else st2

/-- HTTP method of an API call. -/
inductive HttpMethod where
  | GET | POST
deriving DecidableEq

/-- An API request of crewai.ts: method, path, optional body text. -/
structure HttpRequest where
  method : HttpMethod
  path : String
  body : Option String
deriving DecidableEq

/-- `getFlowStatus` (crewai.ts lines 48-51): a GET of `/status/:id` with no
body. -/
def getFlowStatusRequest (kickoffId : String) : HttpRequest :=
  { method := HttpMethod.GET, path := "/status/" ++ kickoffId, body := none }

/-- The JSON wire object posted by `submitFeedback`: a single `feedback`
field holding the caller-supplied value, which both callers pass as a plain
string. -/
structure FeedbackEnvelope where
  feedback : String
deriving DecidableEq

/-- `submitFeedback` (crewai.ts lines 54-60): a POST of `/feedback/:id`
whose body is the feedback string wrapped in a one-field object. -/
structure FeedbackApiCall where
  method : HttpMethod
  path : String
  envelope : FeedbackEnvelope
deriving DecidableEq

/-- Build the `submitFeedback` request for a kickoff id and feedback value. -/
def submitFeedbackRequest (kickoffId : String) (fb : String) : FeedbackApiCall :=
  ⟨HttpMethod.POST, "/feedback/" ++ kickoffId, ⟨fb⟩⟩

/-- `JSON.stringify` of a string array: the elements quoted and
comma-joined between square brackets. -/
def jsonStringOfList (ids : List String) : String :=
  "[" ++ String.intercalate "," (ids.map (fun s => "\"" ++ s ++ "\"")) ++ "]"

/-- The feedback value sent by `handleApproval` (AnalysisPage.tsx lines
38-48): `JSON.stringify(selectedIds)`. -/
def handleApprovalFeedback (selectedIds : List String) : String :=
  jsonStringOfList selectedIds

/-- The feedback value sent by `handleRetry` (AnalysisPage.tsx lines 50-62):
the free text prefixed with the literal "retry: ". -/
def handleRetryFeedback (msg : String) : String := "retry: " ++ msg

/-- First character of a string, used to show how the two feedback payload
shapes differ only by content. -/
def firstChar (s : String) : Option Char := s.data.head?

/-- The criteria record held by SearchForm.tsx (lines 5-10): location,
property type, and optional max price / bedrooms (the TS `number | ''`
becomes `Option Nat`; the form renders no bedrooms input, so bedrooms stays
at its initial empty value). -/
structure SearchCriteria where
  location : String
  property_type : String
  max_price : Option Nat
  bedrooms : Option Nat
deriving DecidableEq

/-- The browser-level constraint on the form: only the location input
carries the HTML `required` attribute, so native form submission is blocked
exactly when location is empty. -/
def browserAllowsSubmit (c : SearchCriteria) : Bool := c.location != ""

/-- `handleSubmit` (SearchForm.tsx lines 25-28): prevent the default and
forward the criteria state unchanged to `onSearch` — no field check of any
kind. -/
def handleSubmit (c : SearchCriteria) : SearchCriteria := c

/-- The kickoff payload's `inputs` object built by `startFlow` (crewai.ts
lines 33-45): the criteria plus the default design style. -/
structure KickoffInputs where
  search_criteria : SearchCriteria
  design_style : String
deriving DecidableEq

/-- `startFlow` (crewai.ts lines 35-45): wrap any criteria, unexamined, with
the default `design_style` "modern minimalist" and POST it. -/
def startFlowPayload (c : SearchCriteria) : KickoffInputs :=
  ⟨c, "modern minimalist"⟩

/-- Modelled from the spec: the `InvalidCriteria` precondition of `start` —
"required fields (target area, category, at least one of bedroom/budget
bound)" all present — written down for comparison with what the client
actually enforces. -/
def specCriteriaValid (c : SearchCriteria) : Bool :=
  (c.location != "") && (c.property_type != "") &&
    (c.bedrooms.isSome || c.max_price.isSome)

/-- `handleMove` of `DesignComparison` (PropertyGrid.tsx lines 41-49): when
dragging over a mounted container, set the slider position to
`((pageX - left) / width) * 100` clamped by
`Math.min(Math.max(position, 0), 100)`; otherwise leave the current position
untouched. JS numbers are modelled as rationals. -/
def handleMove (isDragging hasContainer : Bool) (pageX left width current : ℚ) :
    ℚ :=
  if !isDragging || !hasContainer then current
  else
    let position := ((pageX - left) / width) * 100
    min (max position 0) 100

/-- `useState(50)`: the slider's initial position. -/
def initialSliderPosition : ℚ := 50

/-! Concrete sample data used by witnesses and counterexamples. -/

/-- A sample scraped property used for claim C3's concrete run. -/
def c3Candidate : ScrapedProperty :=
  ⟨"prop-1", "https://listings/1", "$2,450/mo", "123 Congress Ave", 2, 1,
   "Modern loft", ["img1"]⟩

/-- Page data in the RESEARCHING state with nothing received yet (claim C3). -/
def c3PageData : PageData := ⟨PageState.RESEARCHING, [], none, ""⟩

/-- A status response in the feedback-waiting state whose `result` carries
the phase-1 candidate list (claim C3). -/
def c3Status : FlowStatus :=
  ⟨"k1", FlowStatusValue.WAITING_INPUT, some ⟨some [c3Candidate], none⟩,
   none, some "Select the properties to analyze"⟩

/-- Criteria with a location and category but with neither a bedroom count
nor a budget bound (claim C5). -/
def c5Criteria : SearchCriteria := ⟨"Austin", "apartment", none, none⟩

/-- A status response observed while the page is idle (claim C6). -/
def c6Status : FlowStatus := ⟨"k1", FlowStatusValue.RUNNING, none, none, none⟩

end PropertyGemini

namespace PropertyGemini

/-! Theorems. -/

/-- Helper: `toggleSelection` only ever introduces its own argument into
`selectedIds`. -/
theorem mem_toggleSelection_selectedIds {st : SelectorState} {id x : String}
    (hx : x ∈ (toggleSelection id st).selectedIds) :
    x ∈ st.selectedIds ∨ x = id := by
  unfold toggleSelection at hx
  split at hx
  · exact Or.inl (List.mem_of_mem_filter hx)
  · simp only [List.mem_append, List.mem_singleton] at hx
    exact hx

/-- Helper: `handleDesignChange` either leaves `selectedIds` unchanged or
appends its own id. -/
theorem handleDesignChange_selectedIds (id style : String) (st : SelectorState) :
    (handleDesignChange id style st).selectedIds = st.selectedIds ∨
    (handleDesignChange id style st).selectedIds = st.selectedIds ++ [id] := by
  unfold handleDesignChange
  dsimp only
  split
  · exact Or.inl rfl
  · exact Or.inr rfl

/-- Helper: `handleDesignChange` only ever introduces its own argument into
`selectedIds`. -/
theorem mem_handleDesignChange_selectedIds {st : SelectorState}
    {id style x : String}
    (hx : x ∈ (handleDesignChange id style st).selectedIds) :
    x ∈ st.selectedIds ∨ x = id := by
  rcases handleDesignChange_selectedIds id style st with h | h <;> rw [h] at hx
  · exact Or.inl hx
  · simp only [List.mem_append, List.mem_singleton] at hx
    exact hx

/-- Helper: one selector step preserves "every selected id is a candidate
id", given the event's id is a candidate id. -/
theorem selectorStep_selectedIds_subset {props : List String}
    {st : SelectorState} {e : SelectorEvent}
    (hst : ∀ y ∈ st.selectedIds, y ∈ props) (he : e.eid ∈ props) :
    ∀ x ∈ (selectorStep st e).selectedIds, x ∈ props := by
  intro x hx
  cases e with
  | toggle id =>
    rcases mem_toggleSelection_selectedIds hx with h | h
    · exact hst x h
    · exact h ▸ he
  | designChange id style =>
    rcases mem_handleDesignChange_selectedIds hx with h | h
    · exact hst x h
    · exact h ▸ he

/-- Helper: folding selector steps over events whose ids are candidate ids
preserves the selection invariant. -/
theorem selectorFoldl_selectedIds_subset (props : List String) :
    ∀ (evs : List SelectorEvent) (st : SelectorState),
      (∀ e ∈ evs, e.eid ∈ props) → (∀ y ∈ st.selectedIds, y ∈ props) →
      ∀ x ∈ (evs.foldl selectorStep st).selectedIds, x ∈ props := by
  intro evs
  induction evs with
  | nil => intro st _ hst; simpa using hst
  | cons e evs ih =>
    intro st hevs hst
    simp only [List.foldl_cons]
    exact ih _ (fun e' he' => hevs e' (List.mem_cons_of_mem _ he'))
      (selectorStep_selectedIds_subset hst (hevs e (List.mem_cons_self e evs)))

/-- Claim C1: every identifier in an advance decision produced by the
property selector is the id of a rendered candidate property: all UI events
carry ids of rendered properties, the selection therefore stays inside the
candidate id set, and `handleApprove` maps only over the selection. -/
theorem advance_decision_ids_from_candidates
    (properties : List ScrapedProperty) (evs : List SelectorEvent)
    (hui : ∀ e ∈ evs, e.eid ∈ properties.map ScrapedProperty.id) :
    ∀ p ∈ handleApprove (runSelector evs),
      p.1 ∈ properties.map ScrapedProperty.id := by
  intro p hp
  unfold handleApprove at hp
  rcases List.mem_map.mp hp with ⟨id, hid, rfl⟩
  exact selectorFoldl_selectedIds_subset _ evs initialSelectorState hui
    (by simp [initialSelectorState]) id hid

/-- Witness for claim C1 at a concrete event trace over two candidates. -/
theorem advance_decision_ids_from_candidates_witness :
    (∀ e ∈ ([SelectorEvent.toggle "a",
             SelectorEvent.designChange "b" "Industrial"] :
        List SelectorEvent),
      e.eid ∈ List.map ScrapedProperty.id
        [⟨"a", "", "", "", 0, 0, "", []⟩, ⟨"b", "", "", "", 0, 0, "", []⟩]) ∧
    ∀ p ∈ handleApprove (runSelector
        [SelectorEvent.toggle "a", SelectorEvent.designChange "b" "Industrial"]),
      p.1 ∈ List.map ScrapedProperty.id
        [⟨"a", "", "", "", 0, 0, "", []⟩, ⟨"b", "", "", "", 0, 0, "", []⟩] :=
  ⟨by decide, advance_decision_ids_from_candidates _ _ (by decide)⟩

/-- Claim C7: every identifier in the advance decision is paired with a
style: the user-entered preference when a non-empty one exists, and
"Modern Minimalist" otherwise (the JS `designPreferences[id] ||
"Modern Minimalist"` treats an absent and an empty entry alike). -/
theorem advance_decision_pairs_each_id_with_style (st : SelectorState)
    (id : String) (hid : id ∈ st.selectedIds) :
    (id, styleFor st.designPreferences id) ∈ handleApprove st ∧
    ((∃ s, lookupPref st.designPreferences id = some s ∧ s ≠ "" ∧
        styleFor st.designPreferences id = s) ∨
      ((lookupPref st.designPreferences id = none ∨
          lookupPref st.designPreferences id = some "") ∧
        styleFor st.designPreferences id = defaultStyle)) := by
  constructor
  · exact List.mem_map_of_mem _ hid
  · rcases hl : lookupPref st.designPreferences id with _ | s
    · exact Or.inr ⟨Or.inl rfl, by simp [styleFor, hl]⟩
    · by_cases hs : s = ""
      · subst hs
        exact Or.inr ⟨Or.inr rfl, by simp [styleFor, hl]⟩
      · exact Or.inl ⟨s, rfl, hs, by simp [styleFor, hl, hs]⟩

/-- Witness for claim C7: a selection with one entered and one defaulted
style. -/
theorem advance_decision_pairs_each_id_with_style_witness :
    "a" ∈ (⟨["a", "b"], [("a", "Industrial")]⟩ : SelectorState).selectedIds ∧
    (("a", styleFor [("a", "Industrial")] "a") ∈
        handleApprove ⟨["a", "b"], [("a", "Industrial")]⟩ ∧
      ((∃ s, lookupPref [("a", "Industrial")] "a" = some s ∧ s ≠ "" ∧
          styleFor [("a", "Industrial")] "a" = s) ∨
        ((lookupPref [("a", "Industrial")] "a" = none ∨
            lookupPref [("a", "Industrial")] "a" = some "") ∧
          styleFor [("a", "Industrial")] "a" = defaultStyle))) :=
  ⟨by decide,
    advance_decision_pairs_each_id_with_style
      ⟨["a", "b"], [("a", "Industrial")]⟩ "a" (by decide)⟩

/-- Claim C8: when the approve button is enabled (it is disabled exactly
when the selection is empty), the selection and hence the advance decision
handed to `onApprove` contain at least one identifier. -/
theorem enabled_approve_decision_nonempty (st : SelectorState)
    (h : approveDisabled st = false) :
    st.selectedIds ≠ [] ∧ handleApprove st ≠ [] := by
  have hlen : st.selectedIds.length ≠ 0 := by
    simpa [approveDisabled] using h
  have h1 : st.selectedIds ≠ [] := by
    intro hnil
    rw [hnil] at hlen
    simp at hlen
  refine ⟨h1, fun hnil => h1 ?_⟩
  exact List.map_eq_nil_iff.mp hnil

/-- Witness for claim C8 at a one-element selection. -/
theorem enabled_approve_decision_nonempty_witness :
    approveDisabled ⟨["prop-1"], []⟩ = false ∧
    ((⟨["prop-1"], []⟩ : SelectorState).selectedIds ≠ [] ∧
      handleApprove ⟨["prop-1"], []⟩ ≠ []) :=
  ⟨by decide, enabled_approve_decision_nonempty ⟨["prop-1"], []⟩ (by decide)⟩

/-- Claim C9: for a carousel with `total ≥ 1` images and an in-range index,
`nextImage` and `prevImage` round-trip back to the original index and each
single step stays within `[0, total-1]`. -/
theorem carousel_roundtrip_and_bounds (i total : Int) (h1 : 1 ≤ total)
    (h2 : 0 ≤ i) (h3 : i < total) :
    prevImage (nextImage i total) total = i ∧
    nextImage (prevImage i total) total = i ∧
    0 ≤ nextImage i total ∧ nextImage i total < total ∧
    0 ≤ prevImage i total ∧ prevImage i total < total := by
  have htpos : (0 : Int) < total := by omega
  have hne : total ≠ 0 := by omega
  refine ⟨?_, ?_, Int.emod_nonneg _ hne, Int.emod_lt_of_pos _ htpos,
    Int.emod_nonneg _ hne, Int.emod_lt_of_pos _ htpos⟩
  · unfold nextImage prevImage
    rcases lt_or_eq_of_le (show i + 1 ≤ total by omega) with hlt | heq
    · have e1 : (i + 1) % total = i + 1 := Int.emod_eq_of_lt (by omega) hlt
      rw [e1, show i + 1 - 1 + total = i + total * 1 by ring,
        Int.add_mul_emod_self_left]
      exact Int.emod_eq_of_lt h2 h3
    · rw [heq, Int.emod_self, show (0 : Int) - 1 + total = i by omega]
      exact Int.emod_eq_of_lt h2 h3
  · unfold nextImage prevImage
    rcases eq_or_lt_of_le h2 with heq | hpos
    · rw [← heq, show (0 : Int) - 1 + total = total - 1 by ring]
      have e1 : (total - 1) % total = total - 1 :=
        Int.emod_eq_of_lt (by omega) (by omega)
      rw [e1, show total - 1 + 1 = total by ring, Int.emod_self]
    · rw [show i - 1 + total = i - 1 + total * 1 by ring,
        Int.add_mul_emod_self_left]
      have e1 : (i - 1) % total = i - 1 :=
        Int.emod_eq_of_lt (by omega) (by omega)
      rw [e1, show i - 1 + 1 = i by ring]
      exact Int.emod_eq_of_lt h2 h3

/-- Witness for claim C9 at index 2 of a 3-image carousel. -/
theorem carousel_roundtrip_and_bounds_witness :
    ((1 : Int) ≤ 3 ∧ (0 : Int) ≤ 2 ∧ (2 : Int) < 3) ∧
    (prevImage (nextImage 2 3) 3 = 2 ∧
      nextImage (prevImage 2 3) 3 = 2 ∧
      0 ≤ nextImage 2 3 ∧ nextImage 2 3 < 3 ∧
      0 ≤ prevImage 2 3 ∧ prevImage 2 3 < 3) :=
  ⟨by norm_num,
    carousel_roundtrip_and_bounds 2 3 (by norm_num) (by norm_num) (by norm_num)⟩

/-- Claim C10: whatever the pointer position, with a positive container
width (and a current position that is itself in range, as the initial 50
is), the slider position after `handleMove` lies within `[0, 100]`. -/
theorem slider_position_within_bounds (isDragging hasContainer : Bool)
    (pageX left width current : ℚ) (hw : 0 < width) (hc0 : 0 ≤ current)
    (hc1 : current ≤ 100) :
    (0 ≤ handleMove isDragging hasContainer pageX left width current ∧
      handleMove isDragging hasContainer pageX left width current ≤ 100) ∧
    (0 ≤ initialSliderPosition ∧ initialSliderPosition ≤ 100) := by
  refine ⟨?_, by norm_num [initialSliderPosition]⟩
  unfold handleMove
  split
  · exact ⟨hc0, hc1⟩
  · exact ⟨le_min (le_max_right _ _) (by norm_num), min_le_right _ _⟩

/-- Claim C2 counterexample: the client status field takes values outside
the §4.1 lifecycle state set — "PENDING" is a `FlowStatus.status` value and
"RESEARCHING" a page-state value, neither of which is a §4.1 state. -/
theorem status_value_outside_spec_lifecycle :
    flowStatusName FlowStatusValue.PENDING = "PENDING" ∧
    "PENDING" ∉ specLifecycleStates ∧
    pageStateName PageState.RESEARCHING = "RESEARCHING" ∧
    "RESEARCHING" ∉ specLifecycleStates := by decide

/-- Claim C2 amended: the status field and the page state each take exactly
one value from their own closed sets
(`PENDING/RUNNING/COMPLETED/FAILED/WAITING_INPUT` and
`IDLE/STARTING/RESEARCHING/WAITING_USER_INPUT/ANALYZING/COMPLETED/ERROR`),
which are not the §4.1 set: only COMPLETED and FAILED (resp. only
COMPLETED) are shared with it. -/
theorem status_values_from_code_value_sets :
    (∀ s : FlowStatusValue, flowStatusName s ∈
      ["PENDING", "RUNNING", "COMPLETED", "FAILED", "WAITING_INPUT"]) ∧
    (∀ p : PageState, pageStateName p ∈
      ["IDLE", "STARTING", "RESEARCHING", "WAITING_USER_INPUT", "ANALYZING",
       "COMPLETED", "ERROR"]) ∧
    List.filter (fun n => specLifecycleStates.contains n)
      ["PENDING", "RUNNING", "COMPLETED", "FAILED", "WAITING_INPUT"] =
      ["COMPLETED", "FAILED"] ∧
    List.filter (fun n => specLifecycleStates.contains n)
      ["IDLE", "STARTING", "RESEARCHING", "WAITING_USER_INPUT", "ANALYZING",
       "COMPLETED", "ERROR"] = ["COMPLETED"] := by decide

/-- Claim C3 counterexample: a status read taken in the feedback-waiting
state DOES deliver phase output through `result` — at WAITING_INPUT the
client extracts the candidate list from `result` into its research
results. -/
theorem waiting_status_read_delivers_result :
    c3Status.status = FlowStatusValue.WAITING_INPUT ∧
    c3PageData.researchResults = [] ∧
    (checkStatus (some "k1") c3PageData c3Status).researchResults =
      [c3Candidate] ∧
    (checkStatus (some "k1") c3PageData c3Status).pageState =
      PageState.WAITING_USER_INPUT := by decide

/-- Claim C3 amended: the client stores `result` as the final output
exactly at COMPLETED (final results are untouched at every other status),
while at WAITING_INPUT it additionally reads `result`, when present, to
extract the phase-1 candidate list before entering the feedback-waiting
page state. -/
theorem checkStatus_result_population (kickoffId : Option String)
    (st : PageData) (d : FlowStatus)
    (hactive : pollingActive kickoffId st.pageState = true) :
    (d.status = FlowStatusValue.COMPLETED →
      (checkStatus kickoffId st d).finalResults = d.result ∧
      (checkStatus kickoffId st d).pageState = PageState.COMPLETED) ∧
    (∀ r, d.status = FlowStatusValue.WAITING_INPUT → d.result = some r →
      (checkStatus kickoffId st d).researchResults = extractProperties r ∧
      (checkStatus kickoffId st d).pageState = PageState.WAITING_USER_INPUT) ∧
    (d.status ≠ FlowStatusValue.COMPLETED →
      (checkStatus kickoffId st d).finalResults = st.finalResults) := by
  rcases d with ⟨eid, s, res, cs, lf⟩
  refine ⟨?_, ?_, ?_⟩
  · intro hs
    simp only at hs
    subst hs
    simp [checkStatus, hactive]
  · intro r hs hr
    simp only at hs hr
    subst hs
    subst hr
    simp [checkStatus, hactive]
  · intro hs
    simp only at hs
    cases s <;> simp_all [checkStatus, hactive]
    cases res <;> simp

/-- Witness for claim C3's amended statement at the concrete
feedback-waiting status read. -/
theorem checkStatus_result_population_witness :
    pollingActive (some "k1") c3PageData.pageState = true ∧
    ((checkStatus (some "k1") c3PageData c3Status).researchResults =
        extractProperties ⟨some [c3Candidate], none⟩ ∧
      (checkStatus (some "k1") c3PageData c3Status).pageState =
        PageState.WAITING_USER_INPUT) :=
  ⟨by decide,
    (checkStatus_result_population (some "k1") c3PageData c3Status
        (by decide)).2.1 ⟨some [c3Candidate], none⟩ (by decide) (by decide)⟩

/-- Claim C4 counterexample: the feedback submissions carry no tag field —
both variants are plain strings, a rewind being exactly the free text behind
the prefix "retry: " and an advance being the JSON-serialized id array, so
only the content's shape tells them apart. -/
theorem feedback_payload_untagged_concrete :
    handleRetryFeedback "try downtown" = "retry: try downtown" ∧
    handleApprovalFeedback ["prop-1"] = "[\"prop-1\"]" ∧
    firstChar (handleRetryFeedback "try downtown") = some 'r' ∧
    firstChar (handleApprovalFeedback ["prop-1"]) = some '[' ∧
    (submitFeedbackRequest "k1" (handleRetryFeedback "try downtown")).envelope
      = ⟨"retry: try downtown"⟩ := by decide

/-- Claim C4 amended: both decision variants travel through the same
endpoint as untagged strings in the `feedback` field; the rewind is the free
text prefixed by the literal "retry: " and the advance is a JSON array, so
the receiver can only classify intent from message content (here: the first
character). -/
theorem feedback_variant_encoded_by_content (msg : String)
    (ids : List String) (kickoffId : String) :
    handleRetryFeedback msg = "retry: " ++ msg ∧
    firstChar (handleRetryFeedback msg) = some 'r' ∧
    firstChar (handleApprovalFeedback ids) = some '[' ∧
    (submitFeedbackRequest kickoffId (handleRetryFeedback msg)).method =
      HttpMethod.POST ∧
    (submitFeedbackRequest kickoffId
        (handleRetryFeedback msg)).envelope.feedback =
      handleRetryFeedback msg := by
  refine ⟨rfl, ?_, ?_, rfl, rfl⟩
  · show ("retry: " ++ msg).data.head? = some 'r'
    rw [String.data_append]
    rfl
  · show (jsonStringOfList ids).data.head? = some '['
    unfold jsonStringOfList
    rw [String.data_append, String.data_append]
    rfl

/-- Claim C5 counterexample: criteria carrying a location and a category
but neither a bedroom count nor a budget bound pass the form unchanged and
reach the start call, which wraps them without any `InvalidCriteria`
check. -/
theorem start_reached_without_bedroom_or_budget :
    browserAllowsSubmit c5Criteria = true ∧
    handleSubmit c5Criteria = c5Criteria ∧
    specCriteriaValid c5Criteria = false ∧
    startFlowPayload (handleSubmit c5Criteria) =
      ⟨c5Criteria, "modern minimalist"⟩ := by decide

/-- Claim C5 amended: the client performs no criteria validation —
`handleSubmit` forwards every criteria unchanged and `startFlow` wraps it
with the default design style and posts it, and the criteria the browser
lets through (only the location input is `required`) are not contained in
the spec's required-field set: a submission may lack both bedroom and
budget bounds. -/
theorem client_performs_no_criteria_validation (c : SearchCriteria) :
    handleSubmit c = c ∧
    startFlowPayload (handleSubmit c) = ⟨c, "modern minimalist"⟩ ∧
    ¬ (∀ c', browserAllowsSubmit c' = true → specCriteriaValid c' = true) := by
  refine ⟨rfl, rfl, fun hall => ?_⟩
  have h := hall c5Criteria (by decide)
  exact absurd h (by decide)

/-- Claim C6: the client observes progress only through the status GET,
polled at the fixed 3000 ms interval; polling is active exactly while a
kickoff id exists and the page is RESEARCHING or ANALYZING (`checkStatus`
is inert otherwise), and the status read is a GET with no body. -/
theorem polling_fixed_interval_and_get_only :
    pollIntervalMs = 3000 ∧
    (∀ (k : Option String) (s : PageState),
      pollingActive k s = true ↔
        k ≠ none ∧ (s = PageState.RESEARCHING ∨ s = PageState.ANALYZING)) ∧
    (∀ kickoffId, (getFlowStatusRequest kickoffId).method = HttpMethod.GET ∧
      (getFlowStatusRequest kickoffId).body = none) ∧
    (∀ (k : Option String) (st : PageData) (d : FlowStatus),
      pollingActive k st.pageState = false → checkStatus k st d = st) := by
  refine ⟨rfl, ?_, fun _ => ⟨rfl, rfl⟩, ?_⟩
  · intro k s
    cases k <;> cases s <;> simp [pollingActive]
  · intro k st d h
    simp [checkStatus, h]

/-- Witness for claim C6: an idle page makes a status read a no-op. -/
theorem polling_fixed_interval_and_get_only_witness :
    pollingActive (some "k1") PageState.IDLE = false ∧
    checkStatus (some "k1") ⟨PageState.IDLE, [], none, ""⟩ c6Status =
      ⟨PageState.IDLE, [], none, ""⟩ :=
  ⟨by decide,
    polling_fixed_interval_and_get_only.2.2.2 (some "k1")
      ⟨PageState.IDLE, [], none, ""⟩ c6Status (by decide)⟩

/-- Witness for claim C10 with the pointer far beyond the right edge. -/
theorem slider_position_within_bounds_witness :
    ((0 : ℚ) < 100 ∧ (0 : ℚ) ≤ 50 ∧ (50 : ℚ) ≤ 100) ∧
    ((0 ≤ handleMove true true 250 50 100 50 ∧
        handleMove true true 250 50 100 50 ≤ 100) ∧
      (0 ≤ initialSliderPosition ∧ initialSliderPosition ≤ 100)) :=
  ⟨by norm_num,
    slider_position_within_bounds true true 250 50 100 50 (by norm_num)
      (by norm_num) (by norm_num)⟩

end PropertyGemini
